import Mathlib

/-
Shallow embedding of src/Analyzer.py (ChessAnalysis repository).

The analysis pipeline lives in `analyze_game` (lines 96-163).  The
embedding models its control flow exactly: the `try` body opens the
notation file, reads the game, launches the engine, builds the GUI,
runs the per-ply loop, and calls `engine.quit()` (line 156) only after
the loop finishes normally; `except FileNotFoundError` and
`except Exception` (lines 160-163) print a message and return normally.
External effects (file system, engine process, GUI) are inputs: each
fallible call site is an `Except PyError` value supplied by the
environment, so one Lean input describes one concrete execution.
-/

namespace ChessAnalysis

/-- Exceptions (Python `Exception` subclasses) that the body of
`analyze_game` can raise at its fallible call sites. -/
inductive PyError
  | fileNotFound       -- `open(pgn_path)`, line 98
  | engineUnavailable  -- `SimpleEngine.popen_uci`, line 106
  | engineCrash        -- `engine.analyse` raising, lines 121 / 125
  | engineTimeout      -- `engine.analyse` timing out
  | indexError         -- `[...][0]` on an empty list, line 122
  | renderError        -- `gui.draw_board` / Tk failing, lines 110-113 / 150
  deriving DecidableEq, Repr

/-- Side on move, `"White" if board.turn else "Black"` (line 119). -/
inductive Player
  | white
  | black
  deriving DecidableEq, Repr

/-- Moves are opaque tokens; the chess-rules library supplies them. -/
abbrev Move := String

/-- Severity category of a move, as printed at lines 136-147: no branch
taken means no classification (`none`). -/
inductive Severity
  | none
  | inaccuracy
  | mistake
  | blunder
  deriving DecidableEq, Repr

/-- Rank of a severity in the order None < Inaccuracy < Mistake < Blunder. -/
def sevRank : Severity → Nat
  | Severity.none => 0
  | Severity.inaccuracy => 1
  | Severity.mistake => 2
  | Severity.blunder => 3

/-- THRESHOLD_BLUNDER = 300 (line 13). -/
def THRESHOLD_BLUNDER : Int := 300

/-- THRESHOLD_MISTAKE = 100 (line 14). -/
def THRESHOLD_MISTAKE : Int := 100

/-- THRESHOLD_INACCURACY = 50 (line 15). -/
def THRESHOLD_INACCURACY : Int := 50

/-- The if/elif chain on `drop` at lines 136-147: `drop >= 300` blunder,
else `drop >= 100` mistake, else `drop >= 50` inaccuracy, else nothing. -/
def classifyDrop (drop : Int) : Severity :=
  if drop ≥ THRESHOLD_BLUNDER then Severity.blunder
  else if drop ≥ THRESHOLD_MISTAKE then Severity.mistake
  else if drop ≥ THRESHOLD_INACCURACY then Severity.inaccuracy
  else Severity.none

/-- The guard `if prev_score is not None and score is not None` (line 134)
around `drop = prev_score - score` (line 135) and the chain above. -/
def severityOf (prevScore score : Option Int) : Severity :=
  match prevScore, score with
  | some p, some s => classifyDrop (p - s)
  | _, _ => Severity.none

/-- Modelled from the spec: the conversion
`played_info["score"].white().score(mate_score=10000)` (line 126) is code
of the external python-chess library, not of this repository.  Per the
spec's data model, the evaluation is expressed from White's fixed
perspective, mate evaluations are clamped to the constant ±10000 with
sign indicating the winning side, and an unusable score yields None.
`RawScore` is the engine's reply score as the spec describes it. -/
inductive RawScore
  | cp (v : Int)             -- centipawn evaluation, White's perspective
  | mateFor (winner : Player) -- forced mate for `winner`
  | unusable                 -- no usable score
  deriving DecidableEq, Repr

/-- Mate clamp magnitude, the `mate_score=10000` argument at line 126. -/
def MATE_CLAMP : Int := 10000

/-- Modelled from the spec: the numeric score stored per ply, produced by
the python-chess conversion at line 126 (library code absent from src/):
White-perspective centipawns pass through, a forced mate becomes ±10000
by winning side, an unusable score becomes None. -/
def scoreFromWhite : RawScore → Option Int
  | RawScore.cp v => some v
  | RawScore.mateFor Player.white => some MATE_CLAMP
  | RawScore.mateFor Player.black => some (-MATE_CLAMP)
  | RawScore.unusable => Option.none

/-- `best_info.get("pv", [None])[0]` (line 122): an absent "pv" key gives
the default `[None]`, whose head is `None`; a present, non-empty list
gives its head; a present empty list makes `[0]` raise IndexError. -/
def bestMoveOfPv : Option (List Move) → Except PyError (Option Move)
  | Option.none => Except.ok Option.none
  | some [] => Except.error PyError.indexError
  | some (m :: _) => Except.ok (some m)

instance {ε α : Type} [DecidableEq ε] [DecidableEq α] : DecidableEq (Except ε α)
  | Except.ok a, Except.ok b =>
    if h : a = b then isTrue (by rw [h]) else isFalse (by intro hh; cases hh; exact h rfl)
  | Except.ok _, Except.error _ => isFalse (by intro h; cases h)
  | Except.error _, Except.ok _ => isFalse (by intro h; cases h)
  | Except.error e, Except.error f =>
    if h : e = f then isTrue (by rw [h]) else isFalse (by intro hh; cases hh; exact h rfl)

/-- One ply's external-call outcomes: the first `engine.analyse` (line
121, carrying the optional "pv" list), the second `engine.analyse` plus
score field (line 125), and `gui.draw_board` (line 150). -/
structure PlyScript where
  preAnalyse : Except PyError (Option (List Move))
  postScore : Except PyError RawScore
  render : Except PyError Unit
  deriving DecidableEq, Repr

/-- Per-ply analysis record: the console line at lines 128-129 plus the
severity classification at lines 134-147. -/
structure MoveRecord where
  plyIndex : Nat
  actor : Player
  move : Move
  bestMove : Option Move
  score : Option Int
  severity : Severity
  deriving DecidableEq, Repr

/-- `"White" if board.turn else "Black"` (line 119). -/
def plyActor (whiteTurn : Bool) : Player :=
  if whiteTurn then Player.white else Player.black

/-- The `for move in game.mainline_moves()` loop (lines 118-154).  State:
remaining moves, 1-based ply index, side to move (`board.turn`), and
`prev_score` (initialised None at line 115, updated at line 149).
Returns the records produced and either normal completion or the first
exception escaping the loop body.  An exception raised before the
console line of a ply (lines 121-126) leaves no record for that ply; a
render failure (line 150) happens after the ply's record is produced. -/
def runLoop (eng : Nat → PlyScript) :
    List Move → Nat → Bool → Option Int → List MoveRecord × Except PyError Unit
  | [], _, _, _ => ([], Except.ok ())
  | move :: rest, ply, whiteTurn, prevScore =>
    match (eng ply).preAnalyse with
    | Except.error e => ([], Except.error e)
    | Except.ok pvField =>
      match bestMoveOfPv pvField with
      | Except.error e => ([], Except.error e)
      | Except.ok best =>
        match (eng ply).postScore with
        | Except.error e => ([], Except.error e)
        | Except.ok raw =>
          let score := scoreFromWhite raw
          let record : MoveRecord :=
            ⟨ply, plyActor whiteTurn, move, best, score, severityOf prevScore score⟩
          match (eng ply).render with
          | Except.error e => ([record], Except.error e)
          | Except.ok _ =>
            let next := runLoop eng rest (ply + 1) (!whiteTurn) score
            (record :: next.1, next.2)

/-- Outcome of `open(pgn_path)` + `chess.pgn.read_game` (lines 98-103):
the file is missing (FileNotFoundError), the file holds no game
(`read_game` returns None, printed and returned at lines 101-103), or a
game with its mainline move list. -/
inductive PgnInput
  | missing
  | noGame
  | game (moves : List Move)

/-- One concrete execution environment for `analyze_game`: the notation
file, the engine launch outcome (line 106), the GUI construction and
first draw (lines 110-113), and the per-ply external calls. -/
structure RunEnv where
  pgn : PgnInput
  launch : Except PyError Unit
  guiInit : Except PyError Unit
  eng : Nat → PlyScript

/-- Observable effects of a run: whether `popen_uci` succeeded, whether
`engine.quit()` (line 156) ran, and the records produced. -/
structure RunState where
  engineStarted : Bool
  quitCalled : Bool
  records : List MoveRecord
  deriving DecidableEq, Repr

/-- Terminal console report of `analyze_game`: the messages printed at
lines 102, 157, 161 and 163. -/
inductive FinalStatus
  | fileNotFound              -- "PGN file not found" (line 161)
  | noGameFound               -- "No game found in the PGN file." (line 102)
  | completed                 -- "Real-time analysis complete." (line 157)
  | errorDuring (e : PyError) -- "Error during analysis: ..." (line 163)
  deriving DecidableEq, Repr

/-- The `try` body of `analyze_game` (lines 97-158): the state it built
and either a normal return with its report, or the exception escaping to
the handlers.  `engine.quit()` (line 156) runs only when the loop
finished normally; every other path leaves `quitCalled = false`. -/
def tryBody (env : RunEnv) : RunState × Except PyError FinalStatus :=
  match env.pgn with
  | PgnInput.missing => (⟨false, false, []⟩, Except.error PyError.fileNotFound)
  | PgnInput.noGame => (⟨false, false, []⟩, Except.ok FinalStatus.noGameFound)
  | PgnInput.game moves =>
    match env.launch with
    | Except.error e => (⟨false, false, []⟩, Except.error e)
    | Except.ok _ =>
      match env.guiInit with
      | Except.error e => (⟨true, false, []⟩, Except.error e)
      | Except.ok _ =>
        match runLoop env.eng moves 1 true Option.none with
        | (records, Except.error e) => (⟨true, false, records⟩, Except.error e)
        | (records, Except.ok _) => (⟨true, true, records⟩, Except.ok FinalStatus.completed)

/-- The handler chain at lines 160-163: FileNotFoundError prints the
file-not-found message, every other exception prints the generic error
message; both return normally. -/
def handle : PyError → FinalStatus
  | PyError.fileNotFound => FinalStatus.fileNotFound
  | e => FinalStatus.errorDuring e

/-- Full result of one run of `analyze_game`. -/
structure RunResult where
  engineStarted : Bool
  quitCalled : Bool
  records : List MoveRecord
  status : FinalStatus
  deriving DecidableEq, Repr

/-- `analyze_game` (lines 96-163): the `try` body wrapped by the two
handlers; every raised exception is converted to a printed status and a
normal return. -/
def analyze_game (env : RunEnv) : RunResult :=
  match tryBody env with
  | (st, Except.ok s) => ⟨st.engineStarted, st.quitCalled, st.records, s⟩
  | (st, Except.error e) => ⟨st.engineStarted, st.quitCalled, st.records, handle e⟩

/-- Execution environment for a one-move game that completes normally. -/
def okEnv : RunEnv :=
  ⟨PgnInput.game ["e4"], Except.ok (), Except.ok (),
   fun _ => ⟨Except.ok (some ["bm"]), Except.ok (RawScore.cp 20), Except.ok ()⟩⟩

/-- Execution environment for a one-move game in which the engine
crashes on the very first `engine.analyse` call. -/
def crashEnv1 : RunEnv :=
  ⟨PgnInput.game ["e4"], Except.ok (), Except.ok (),
   fun _ => ⟨Except.error PyError.engineCrash, Except.error PyError.engineCrash, Except.ok ()⟩⟩

/-- Execution environment for a ten-move game in which the engine works
for plies 1 and 2 and crashes on ply 3. -/
def crashEnv10 : RunEnv :=
  ⟨PgnInput.game ["m1", "m2", "m3", "m4", "m5", "m6", "m7", "m8", "m9", "m10"],
   Except.ok (), Except.ok (),
   fun ply =>
     if ply < 3 then ⟨Except.ok (some ["bm"]), Except.ok (RawScore.cp 0), Except.ok ()⟩
     else ⟨Except.error PyError.engineCrash, Except.error PyError.engineCrash, Except.ok ()⟩⟩

/-- Engine script replying with centipawn 7 (White perspective) on
every ply. -/
def cpSevenEng : Nat → PlyScript :=
  fun _ => ⟨Except.ok (some ["b"]), Except.ok (RawScore.cp 7), Except.ok ()⟩

/-- Execution environment for a two-move game in which Black's move
(ply 2) raises the White-perspective score from 0 to +310 centipawns:
a 310-centipawn loss for Black, the mover. -/
def blackBlunderEnv : RunEnv :=
  ⟨PgnInput.game ["e4", "f6"], Except.ok (), Except.ok (),
   fun ply =>
     if ply = 1 then ⟨Except.ok (some ["bm1"]), Except.ok (RawScore.cp 0), Except.ok ()⟩
     else ⟨Except.ok (some ["bm2"]), Except.ok (RawScore.cp 310), Except.ok ()⟩⟩

/-- Claim C3: the severity classification is exactly the banded function
of delta — delta ≥ 300 is Blunder, 100 ≤ delta < 300 is Mistake,
50 ≤ delta < 100 is Inaccuracy, delta < 50 is None, and an undefined
delta (either score missing) is None.  The iff form makes the bands
exhaustive and non-overlapping, inclusive at the lower bounds. -/
theorem classify_bands (d : Int) (p s : Option Int) :
    (classifyDrop d = Severity.blunder ↔ THRESHOLD_BLUNDER ≤ d) ∧
    (classifyDrop d = Severity.mistake ↔ THRESHOLD_MISTAKE ≤ d ∧ d < THRESHOLD_BLUNDER) ∧
    (classifyDrop d = Severity.inaccuracy ↔ THRESHOLD_INACCURACY ≤ d ∧ d < THRESHOLD_MISTAKE) ∧
    (classifyDrop d = Severity.none ↔ d < THRESHOLD_INACCURACY) ∧
    ((p = Option.none ∨ s = Option.none) → severityOf p s = Severity.none) := by
  refine ⟨?_, ?_, ?_, ?_, ?_⟩
  · simp only [classifyDrop, THRESHOLD_BLUNDER, THRESHOLD_MISTAKE, THRESHOLD_INACCURACY]
    split_ifs <;> simp <;> omega
  · simp only [classifyDrop, THRESHOLD_BLUNDER, THRESHOLD_MISTAKE, THRESHOLD_INACCURACY]
    split_ifs <;> simp <;> omega
  · simp only [classifyDrop, THRESHOLD_BLUNDER, THRESHOLD_MISTAKE, THRESHOLD_INACCURACY]
    split_ifs <;> simp <;> omega
  · simp only [classifyDrop, THRESHOLD_BLUNDER, THRESHOLD_MISTAKE, THRESHOLD_INACCURACY]
    split_ifs <;> simp <;> omega
  · rintro (rfl | rfl)
    · rfl
    · cases p <;> rfl

/-- Witness for classify_bands at concrete inputs. -/
theorem classify_bands_witness :
    classifyDrop 300 = Severity.blunder ∧
    severityOf Option.none (some 7) = Severity.none := by
  have h := classify_bands 300 Option.none (some 7)
  exact ⟨h.1.mpr (by decide), h.2.2.2.2 (Or.inl rfl)⟩

/-- Claim C5 counterexample: classification is not monotone in the
magnitude of delta.  |60| ≤ |-400| yet classifyDrop 60 = Inaccuracy
ranks strictly above classifyDrop (-400) = None, because the chain at
lines 136-147 reads the signed drop, not its magnitude. -/
theorem classify_not_magnitude_monotone :
    (60 : Int).natAbs ≤ (-400 : Int).natAbs ∧
    ¬ sevRank (classifyDrop 60) ≤ sevRank (classifyDrop (-400)) := by decide

/-- Claim C5 (amended): severity classification is a deterministic
function of the signed delta alone, monotone non-decreasing in the
signed delta (not in its magnitude) under the order
None < Inaccuracy < Mistake < Blunder. -/
theorem classify_monotone_signed (d1 d2 : Int) (h : d1 ≤ d2) :
    sevRank (classifyDrop d1) ≤ sevRank (classifyDrop d2) := by
  simp only [classifyDrop, THRESHOLD_BLUNDER, THRESHOLD_MISTAKE, THRESHOLD_INACCURACY]
  split_ifs <;> simp [sevRank] <;> omega

/-- Witness for classify_monotone_signed at concrete inputs. -/
theorem classify_monotone_signed_witness :
    sevRank (classifyDrop 40) ≤ sevRank (classifyDrop 500) :=
  classify_monotone_signed 40 500 (by decide)

/-- Claim C7: when the notation file is missing, the run reports the
file-not-found condition, the engine is never started (so no session is
created and none is stopped), no records are produced, and
`analyze_game` returns normally. -/
theorem missing_pgn_clean_exit (launch guiInit : Except PyError Unit) (eng : Nat → PlyScript) :
    analyze_game ⟨PgnInput.missing, launch, guiInit, eng⟩ =
      ⟨false, false, [], FinalStatus.fileNotFound⟩ := rfl

/-- Claim C1 (code evidence): `engine.quit()` is reached only on normal
completion of the move loop (line 156).  On the normal path of `okEnv`
it runs; but when the engine crashes mid-loop (`crashEnv1`, a
successfully started session), the exception jumps to the handler at
line 162 and `engine.quit()` is never invoked, contradicting the
every-exit-path contract. -/
theorem quit_skipped_on_crash :
    (analyze_game okEnv).quitCalled = true ∧
    (analyze_game crashEnv1).engineStarted = true ∧
    (analyze_game crashEnv1).quitCalled = false ∧
    (analyze_game crashEnv1).status = FinalStatus.errorDuring PyError.engineCrash := by
  decide

/-- Claim C6 (code evidence): with the engine crashing on ply 3 of a
ten-ply game, the records for plies 1 and 2 are retained, no records
are produced for plies 3-10, and the run reports the aborted
error status — but `quitCalled = false`: the session is not stopped,
contradicting the claim's "the session is stopped" conjunct. -/
theorem crash_ply3_keeps_first_two_records :
    analyze_game crashEnv10 =
      ⟨true, false,
       [⟨1, Player.white, "m1", some "bm", some 0, Severity.none⟩,
        ⟨2, Player.black, "m2", some "bm", some 0, Severity.none⟩],
       FinalStatus.errorDuring PyError.engineCrash⟩ := by decide

/-- Claim C2 (code evidence): on Black's ply the delta handed to the
classification is `prev_score - score` in White's fixed perspective
(line 135), not the mover's loss.  In `blackBlunderEnv` Black's move
loses 310 centipawns for Black (White-perspective score goes 0 → +310);
the mover's loss 310 would classify as Blunder, but the code hands the
chain delta = 0 - 310 = -310 and emits no classification. -/
theorem black_blunder_not_flagged :
    analyze_game blackBlunderEnv =
      ⟨true, true,
       [⟨1, Player.white, "e4", some "bm1", some 0, Severity.none⟩,
        ⟨2, Player.black, "f6", some "bm2", some 310, Severity.none⟩],
       FinalStatus.completed⟩ ∧
    classifyDrop 310 = Severity.blunder ∧
    severityOf (some 0) (some 310) = Severity.none := by decide

/-- Claim C4: a non-None severity requires both the current and the
preceding post-move score to be defined (the guard at line 134), and
the first record of any run — produced with `prev_score = None`
(line 115) — always has severity None. -/
theorem severity_needs_both_scores (p s : Option Int) (eng : Nat → PlyScript)
    (moves : List Move) (r : MoveRecord) :
    (severityOf p s ≠ Severity.none → p.isSome = true ∧ s.isSome = true) ∧
    ((runLoop eng moves 1 true Option.none).1.head? = some r →
      r.severity = Severity.none) := by
  constructor
  · intro h
    cases p <;> cases s <;> simp [severityOf] at h ⊢
  · intro h
    cases moves with
    | nil => simp [runLoop] at h
    | cons m rest =>
      rcases hpre : (eng 1).preAnalyse with e | pv
      · simp [runLoop, hpre] at h
      · rcases hpv : bestMoveOfPv pv with e | best
        · simp [runLoop, hpre, hpv] at h
        · rcases hpost : (eng 1).postScore with e | raw
          · simp [runLoop, hpre, hpv, hpost] at h
          · rcases hr : (eng 1).render with e | u <;>
              · simp [runLoop, hpre, hpv, hpost, hr] at h
                rw [← h]
                cases hsw : scoreFromWhite raw <;> rfl

/-- Witness for severity_needs_both_scores at concrete inputs. -/
theorem severity_needs_both_scores_witness :
    ((some (400 : Int)).isSome = true ∧ (some (0 : Int)).isSome = true) ∧
    (⟨1, Player.white, "m", some "b", some 5, Severity.none⟩ : MoveRecord).severity
      = Severity.none := by
  have h := severity_needs_both_scores (some 400) (some 0)
    (fun _ => ⟨Except.ok (some ["b"]), Except.ok (RawScore.cp 5), Except.ok ()⟩) ["m"]
    ⟨1, Player.white, "m", some "b", some 5, Severity.none⟩
  exact ⟨h.1 (by decide), h.2 (by decide)⟩

/-- Claim C8: every score a record stores is the White-perspective
conversion `scoreFromWhite` of the engine's actual reply for that
record's ply (line 126): for each record the engine's post-move analyse
succeeded with some raw reply and the stored score is exactly its
conversion, under which centipawn values pass through unchanged in
White's fixed perspective and a forced mate is clamped to
±MATE_CLAMP = ±10000 with the sign of the winning side. -/
theorem scores_white_perspective_mate_clamped (eng : Nat → PlyScript) (moves : List Move)
    (ply : Nat) (wt : Bool) (prev : Option Int) (r : MoveRecord) (v : Int) :
    (r ∈ (runLoop eng moves ply wt prev).1 →
      ∃ raw, (eng r.plyIndex).postScore = Except.ok raw ∧ r.score = scoreFromWhite raw) ∧
    scoreFromWhite (RawScore.cp v) = some v ∧
    scoreFromWhite (RawScore.mateFor Player.white) = some MATE_CLAMP ∧
    scoreFromWhite (RawScore.mateFor Player.black) = some (-MATE_CLAMP) ∧
    scoreFromWhite RawScore.unusable = Option.none ∧
    MATE_CLAMP = 10000 := by
  refine ⟨?_, rfl, rfl, rfl, rfl, rfl⟩
  induction moves generalizing ply wt prev with
  | nil => intro h; simp [runLoop] at h
  | cons m rest ih =>
    intro h
    rcases hpre : (eng ply).preAnalyse with e | pv
    · simp [runLoop, hpre] at h
    · rcases hpv : bestMoveOfPv pv with e | best
      · simp [runLoop, hpre, hpv] at h
      · rcases hpost : (eng ply).postScore with e | raw
        · simp [runLoop, hpre, hpv, hpost] at h
        · rcases hr : (eng ply).render with e | u
          · simp [runLoop, hpre, hpv, hpost, hr] at h
            exact ⟨raw, by rw [h]; exact hpost, by rw [h]⟩
          · simp [runLoop, hpre, hpv, hpost, hr] at h
            rcases h with h | h
            · exact ⟨raw, by rw [h]; exact hpost, by rw [h]⟩
            · exact ih _ _ _ h

/-- Witness for scores_white_perspective_mate_clamped at concrete inputs. -/
theorem scores_white_perspective_mate_clamped_witness :
    ∃ raw, (cpSevenEng 1).postScore = Except.ok raw ∧
      (⟨1, Player.white, "m", some "b", some 7, Severity.none⟩ : MoveRecord).score
        = scoreFromWhite raw := by
  have h := scores_white_perspective_mate_clamped cpSevenEng ["m"] 1 true Option.none
    ⟨1, Player.white, "m", some "b", some 7, Severity.none⟩ 0
  exact h.1 (by decide)

/-- Claim C9: `analyze_game` never lets an exception escape.  Every run
either ends with the try body returning normally, or the body raises
some exception `e` and `analyze_game` still returns a normal
`RunResult` whose status is the handler's printed message `handle e`
(lines 160-163); there is no third outcome. -/
theorem analyze_game_never_raises (env : RunEnv) :
    (∃ s, (tryBody env).2 = Except.ok s ∧
      analyze_game env = ⟨(tryBody env).1.engineStarted, (tryBody env).1.quitCalled,
        (tryBody env).1.records, s⟩) ∨
    (∃ e, (tryBody env).2 = Except.error e ∧
      analyze_game env = ⟨(tryBody env).1.engineStarted, (tryBody env).1.quitCalled,
        (tryBody env).1.records, handle e⟩) := by
  rcases h : tryBody env with ⟨st, out⟩
  cases out with
  | ok s =>
    left
    exact ⟨s, rfl, by simp [analyze_game, h]⟩
  | error e =>
    right
    exact ⟨e, rfl, by simp [analyze_game, h]⟩

/-- Claim C10: the pre-move best move is `best_info.get("pv", [None])[0]`
(line 122).  An absent "pv" key yields None and the ply still produces
its record; a present but empty "pv" list makes the index-0 access
raise, aborting the remaining analysis with no record for that ply. -/
theorem pv_head_semantics (eng : Nat → PlyScript) (m : Move) (rest : List Move)
    (ply : Nat) (wt : Bool) (prev : Option Int) (raw : RawScore) :
    bestMoveOfPv Option.none = Except.ok Option.none ∧
    bestMoveOfPv (some []) = Except.error PyError.indexError ∧
    ((eng ply).preAnalyse = Except.ok Option.none →
      (eng ply).postScore = Except.ok raw →
      (runLoop eng (m :: rest) ply wt prev).1.head? =
        some ⟨ply, plyActor wt, m, Option.none, scoreFromWhite raw,
              severityOf prev (scoreFromWhite raw)⟩) ∧
    ((eng ply).preAnalyse = Except.ok (some []) →
      runLoop eng (m :: rest) ply wt prev = ([], Except.error PyError.indexError)) := by
  refine ⟨rfl, rfl, ?_, ?_⟩
  · intro h1 h2
    rcases hr : (eng ply).render with e | u <;>
      simp [runLoop, h1, h2, hr, bestMoveOfPv]
  · intro h1
    simp [runLoop, h1, bestMoveOfPv]

/-- Witness for pv_head_semantics at concrete inputs. -/
theorem pv_head_semantics_witness :
    (runLoop (fun _ => ⟨Except.ok Option.none, Except.ok (RawScore.cp 7), Except.ok ()⟩)
        ["m"] 1 true Option.none).1.head? =
      some ⟨1, Player.white, "m", Option.none, some 7, Severity.none⟩ ∧
    runLoop (fun _ => ⟨Except.ok (some []), Except.ok (RawScore.cp 7), Except.ok ()⟩)
        ["m"] 1 true Option.none = ([], Except.error PyError.indexError) := by
  constructor
  · exact (pv_head_semantics
      (fun _ => ⟨Except.ok Option.none, Except.ok (RawScore.cp 7), Except.ok ()⟩)
      "m" [] 1 true Option.none (RawScore.cp 7)).2.2.1 rfl rfl
  · exact (pv_head_semantics
      (fun _ => ⟨Except.ok (some []), Except.ok (RawScore.cp 7), Except.ok ()⟩)
      "m" [] 1 true Option.none (RawScore.cp 7)).2.2.2 rfl

end ChessAnalysis
